import Mathlib

/-!
Shallow embedding of the DaedalusEngine renderer (`src/application.rs`).
Machine floats (`f32`/`f64`) are modelled as exact rationals; the claims
checked here concern which values are written to which fields, not
floating-point rounding.  Fallible operations (`unwrap`, slice indexing)
are modelled with `Option`: `none` is a process abort (panic).
-/

namespace Daedalus

/-- Models `winit::dpi::PhysicalSize<u32>`. -/
structure PhysicalSize where
  width : Nat
  height : Nat
deriving DecidableEq, Repr

/-- Models `winit::dpi::PhysicalPosition<f64>`. -/
structure PhysicalPosition where
  x : ℚ
  y : ℚ
deriving DecidableEq, Repr

/-- Models `wgpu::Color` (four `f64` channels). -/
structure Color where
  r : ℚ
  g : ℚ
  b : ℚ
  a : ℚ
deriving DecidableEq, Repr

/-- Models `wgpu::TextureFormat` abstractly: an identifier plus the
`is_srgb()` capability bit that `State::new` queries. -/
structure TextureFormat where
  id : Nat
  srgb : Bool
deriving DecidableEq, Repr

/-- Models `wgpu::SurfaceCapabilities`: the lists queried in `State::new`. -/
structure SurfaceCapabilities where
  formats : List TextureFormat
  present_modes : List Nat
  alpha_modes : List Nat
deriving DecidableEq, Repr

/-- Models the fields of `wgpu::SurfaceConfiguration` that the program reads
or writes after construction (format, width, height, present mode, alpha
mode); `usage`, `view_formats` and `desired_maximum_frame_latency` are set
once in `State::new` and never touched again, so they are carried as data
too for completeness. -/
structure SurfaceConfiguration where
  format : TextureFormat
  width : Nat
  height : Nat
  present_mode : Nat
  alpha_mode : Nat
  desired_maximum_frame_latency : Nat
deriving DecidableEq, Repr

/-- Models `struct Vertex`: an XYZ position and an RGB color. -/
structure Vertex where
  position : ℚ × ℚ × ℚ
  color : ℚ × ℚ × ℚ
deriving DecidableEq, Repr

/-- The compile-time constant `VERTICES` from `application.rs` (the five
pentagon vertices, exact decimal literals as rationals). -/
def VERTICES : List Vertex :=
  [ { position := (-(868241/10000000), 49240386/100000000, 0), color := (1/2, 0, 1/2) },
    { position := (-(49513406/100000000), 6958647/100000000, 0), color := (1/2, 0, 1/2) },
    { position := (-(21918549/100000000), -(44939706/100000000), 0), color := (1/2, 0, 1/2) },
    { position := (35966998/100000000, -(3473291/10000000), 0), color := (1/2, 0, 1/2) },
    { position := (44147372/100000000, 2347359/10000000, 0), color := (1/2, 0, 1/2) } ]

/-- The compile-time constant `INDICES` from `application.rs` (`u16`
indices, modelled as naturals). -/
def INDICES : List Nat :=
  [0, 1, 4,
   1, 2, 4,
   2, 3, 4]

/-- Models `wgpu::SurfaceError`, the typed error of `render()`. -/
inductive SurfaceError where
  | timeout
  | outdated
  | lost
  | outOfMemory
deriving DecidableEq, Repr

/-- Models the renderer `struct State`: the fields the four operations read
or write.  GPU handles (surface, device, queue, pipeline, buffers) are
opaque resources with no observable state in this program and are omitted;
`num_vertices` and `num_indices` are kept because `render()` reads them. -/
structure State where
  config : SurfaceConfiguration
  size : PhysicalSize
  clear_color : Color
  num_vertices : Nat
  num_indices : Nat
deriving DecidableEq, Repr

/-- Models the surface-format selection in `State::new`:
`surface_caps.formats.iter().copied().filter(|f| f.is_srgb()).next()
.unwrap_or(surface_caps.formats[0])`.  Indexing `formats[0]` panics on an
empty list, hence the `Option`. -/
def chooseSurfaceFormat (formats : List TextureFormat) : Option TextureFormat :=
  match (formats.filter fun f => f.srgb).head? with
  | some f => some f
  | none => formats.head?

/-- Models `State::new` from the window size and queried surface
capabilities onward (instance/adapter/device acquisition is external and
its failures abort before any state exists).  Indexing
`present_modes[0]` / `alpha_modes[0]` panics on an empty list, hence the
`Option`. -/
def State.new (size : PhysicalSize) (caps : SurfaceCapabilities) : Option State :=
  match chooseSurfaceFormat caps.formats, caps.present_modes.head?, caps.alpha_modes.head? with
  | some surface_format, some pm, some am =>
      some
        { config :=
            { format := surface_format
              width := size.width
              height := size.height
              present_mode := pm
              alpha_mode := am
              desired_maximum_frame_latency := 2 }
          size := size
          clear_color := { a := 1, r := 1/10, g := 2/10, b := 3/10 }
          num_vertices := VERTICES.length
          num_indices := INDICES.length }
  | _, _, _ => none

/-- Models `State::resize`: if both dimensions are non-zero, store the new
size and overwrite the configuration width/height (the subsequent
`surface.configure` call has no observable state here); otherwise do
nothing. -/
def State.resize (s : State) (new_size : PhysicalSize) : State :=
  if new_size.width > 0 ∧ new_size.height > 0 then
    { s with
        size := new_size
        config := { s.config with width := new_size.width, height := new_size.height } }
  else s

/-- Models `State::input`: unconditionally overwrite the clear color from
the pointer position and the stored size, and return `true`.  The Rust
method mutates `self`; here the updated state is returned alongside the
`bool`. -/
def State.input (s : State) (position : PhysicalPosition) : State × Bool :=
  ({ s with
      clear_color :=
        { a := 1
          r := position.x / (s.size.width : ℚ)
          g := position.y / (s.size.height : ℚ)
          b := 3/10 } },
   true)

/-- Observable content of one encoded frame: the clear color loaded into
the color attachment and the index range of the single
`draw_indexed(0..self.num_indices, 0, 0..1)` call. -/
structure Frame where
  clearColor : Color
  indexCount : Nat
deriving DecidableEq, Repr

/-- Models `State::render`.  The outcome of
`self.surface.get_current_texture()` is an input from the environment
(`acq`).  The code calls `.unwrap()` on it, so an acquisition failure is a
panic (`none`), not a returned error; on success the frame is encoded,
submitted and presented, the state is unchanged, and `Ok(())` is returned.
The `Except.error` branch of the result type exists (the Rust signature is
`Result<(), wgpu::SurfaceError>`) but is never produced. -/
def State.render (s : State) (acq : Except SurfaceError Unit) :
    Option (Except SurfaceError (State × Frame)) :=
  match acq with
  | .error _ => none
  | .ok _ =>
      some (.ok (s, { clearColor := s.clear_color, indexCount := s.num_indices }))

/-- States reachable through the program: any state produced by
`State::new`, closed under `resize`, `input` (pointer move), and a
non-panicking `render`. -/
inductive Reachable : State → Prop
  | new (size : PhysicalSize) (caps : SurfaceCapabilities) (s : State) :
      State.new size caps = some s → Reachable s
  | resize (s : State) (ns : PhysicalSize) :
      Reachable s → Reachable (s.resize ns)
  | input (s : State) (p : PhysicalPosition) :
      Reachable s → Reachable (s.input p).1
  | render (s s' : State) (acq : Except SurfaceError Unit) (fr : Frame) :
      Reachable s → s.render acq = some (.ok (s', fr)) → Reachable s'

/-- A concrete texture format used by the concrete witnesses below. -/
def fmtEx : TextureFormat := { id := 7, srgb := true }

/-- Concrete surface capabilities used by the concrete witnesses below. -/
def capsEx : SurfaceCapabilities :=
  { formats := [fmtEx], present_modes := [0], alpha_modes := [0] }

/-- A concrete window size (800×600) used by the concrete witnesses below. -/
def sizeEx : PhysicalSize := { width := 800, height := 600 }

/-- The state `State.new sizeEx capsEx` produces, written out. -/
def stEx : State :=
  { config :=
      { format := fmtEx
        width := 800
        height := 600
        present_mode := 0
        alpha_mode := 0
        desired_maximum_frame_latency := 2 }
    size := sizeEx
    clear_color := { r := 1/10, g := 2/10, b := 3/10, a := 1 }
    num_vertices := 5
    num_indices := 9 }

theorem new_stEx : State.new sizeEx capsEx = some stEx := rfl

/-- The head of a filtered list is the first element satisfying the
predicate. -/
theorem head?_filter_eq_find {α : Type} (p : α → Bool) (l : List α) :
    (l.filter p).head? = l.find? p := by
  induction l with
  | nil => rfl
  | cons a t ih => by_cases pa : p a <;> simp [List.filter_cons, List.find?_cons, pa, ih]

/-- A successful `find?` returns the positionally first element satisfying
the predicate. -/
theorem find?_first {α : Type} (p : α → Bool) (l : List α) (f : α)
    (h : l.find? p = some f) :
    ∃ k, ∃ hk : k < l.length, l.get ⟨k, hk⟩ = f ∧ p f = true ∧
      ∀ j (hj : j < l.length), j < k → p (l.get ⟨j, hj⟩) = false := by
  induction l with
  | nil => simp at h
  | cons a t ih =>
    by_cases pa : p a
    · rw [List.find?_cons_of_pos _ pa] at h
      obtain rfl : a = f := by injection h
      exact ⟨0, by simp, rfl, pa, fun j hj hj0 => absurd hj0 (by omega)⟩
    · rw [List.find?_cons_of_neg _ (by simpa using pa)] at h
      obtain ⟨k, hk, hget, hpf, hfirst⟩ := ih h
      refine ⟨k + 1, by simpa using Nat.succ_lt_succ hk, hget, hpf, ?_⟩
      intro j hj hj0
      match j with
      | 0 => simpa using pa
      | j' + 1 =>
        exact hfirst j' (by simpa using Nat.lt_of_succ_lt_succ hj) (by omega)

/-- C2: for every size `(w, h)` with `w > 0` and `h > 0` passed to
`resize`, after the call the surface configuration's width and height
equal `w` and `h` exactly, and the stored window size equals `(w, h)`. -/
theorem resize_sets_dimensions (s : State) (ns : PhysicalSize)
    (hw : 0 < ns.width) (hh : 0 < ns.height) :
    (s.resize ns).config.width = ns.width ∧
    (s.resize ns).config.height = ns.height ∧
    (s.resize ns).size = ns := by
  unfold State.resize
  rw [if_pos ⟨hw, hh⟩]
  exact ⟨rfl, rfl, rfl⟩

/-- Witness for C2 at the concrete state `stEx` and size `(320, 240)`. -/
theorem resize_sets_dimensions_witness :
    0 < (320 : Nat) ∧ 0 < (240 : Nat) ∧
    ((stEx.resize ⟨320, 240⟩).config.width = 320 ∧
     (stEx.resize ⟨320, 240⟩).config.height = 240 ∧
     (stEx.resize ⟨320, 240⟩).size = ⟨320, 240⟩) :=
  ⟨by decide, by decide,
   resize_sets_dimensions stEx ⟨320, 240⟩ (by decide) (by decide)⟩

/-- C3: for every size `(w, h)` with `w == 0` or `h == 0` passed to
`resize`, the call leaves every field of the renderer state unchanged. -/
theorem resize_zero_noop (s : State) (ns : PhysicalSize)
    (h : ns.width = 0 ∨ ns.height = 0) : s.resize ns = s := by
  unfold State.resize
  rw [if_neg]
  rintro ⟨hw, hh⟩
  rcases h with h | h <;> omega

/-- Witness for C3 at the concrete state `stEx` and size `(0, 150)`. -/
theorem resize_zero_noop_witness :
    ((0 : Nat) = 0 ∨ (150 : Nat) = 0) ∧ stEx.resize ⟨0, 150⟩ = stEx :=
  ⟨Or.inl rfl, resize_zero_noop stEx ⟨0, 150⟩ (Or.inl rfl)⟩

/-- C4: for every pointer position `(x, y)` and every renderer state,
`handle_pointer_move` (`State::input`) sets the clear color to exactly
`r = x / width`, `g = y / height`, `b = 0.3`, `a = 1.0` — with no clamping
of `r` or `g` — and returns `true` on every call. -/
theorem input_sets_clear_color (s : State) (p : PhysicalPosition) :
    (s.input p).1.clear_color =
      { r := p.x / (s.size.width : ℚ)
        g := p.y / (s.size.height : ℚ)
        b := 3/10
        a := 1 } ∧
    (s.input p).2 = true :=
  ⟨rfl, rfl⟩

/-- C8: the fixed index sequence is exactly `[0,1,4, 1,2,4, 2,3,4]` (nine
indices, all representable in 16 bits), and every index lies in `[0, 4]`,
a valid position in the 5-vertex array. -/
theorem indices_valid :
    INDICES = [0, 1, 4, 1, 2, 4, 2, 3, 4] ∧
    INDICES.length = 9 ∧
    (∀ i ∈ INDICES, i < 2 ^ 16) ∧
    (∀ i ∈ INDICES, i ≤ 4) ∧
    (∀ i ∈ INDICES, i < VERTICES.length) := by
  refine ⟨rfl, rfl, ?_, ?_, ?_⟩ <;> decide

/-- C9: `handle_pointer_move` is idempotent — applying it twice with the
same position yields the same whole state (and returned flag) as applying
it once. -/
theorem input_idempotent (s : State) (p : PhysicalPosition) :
    (s.input p).1.input p = s.input p := rfl

/-- C5: in every reachable renderer state the surface configuration's
width and height equal the stored window size's width and height; this
holds after `State::new` and is preserved by `resize`, pointer move
(`input`) and `render`. -/
theorem config_matches_size (s : State) (h : Reachable s) :
    s.config.width = s.size.width ∧ s.config.height = s.size.height := by
  induction h with
  | new size caps s hnew =>
    unfold State.new at hnew
    split at hnew
    · obtain rfl := Option.some.inj hnew
      exact ⟨rfl, rfl⟩
    · exact absurd hnew (by simp)
  | resize s ns _ ih =>
    unfold State.resize
    split
    · exact ⟨rfl, rfl⟩
    · exact ih
  | input s p _ ih => exact ih
  | render s s' acq fr _ hr ih =>
    unfold State.render at hr
    split at hr
    · exact absurd hr (by simp)
    · simp only [Option.some.injEq, Except.ok.injEq, Prod.mk.injEq] at hr
      obtain ⟨rfl, -⟩ := hr
      exact ih

/-- Witness for C5 at the concrete reachable state `stEx`. -/
theorem config_matches_size_witness :
    stEx.config.width = stEx.size.width ∧
    stEx.config.height = stEx.size.height :=
  config_matches_size stEx (Reachable.new sizeEx capsEx stEx new_stEx)

/-- C6: resizing to the current stored size and then rendering leaves the
configuration's format, present mode and alpha mode unchanged; moreover no
operation other than initialization writes any configuration field except
width and height (`resize` with any size preserves the other fields, and
pointer move preserves the whole configuration). -/
theorem resize_render_preserve_config (s : State)
    (acq : Except SurfaceError Unit) (s' : State) (fr : Frame)
    (h : (s.resize s.size).render acq = some (.ok (s', fr))) :
    (s'.config.format = s.config.format ∧
     s'.config.present_mode = s.config.present_mode ∧
     s'.config.alpha_mode = s.config.alpha_mode) ∧
    (∀ ns : PhysicalSize,
      (s.resize ns).config.format = s.config.format ∧
      (s.resize ns).config.present_mode = s.config.present_mode ∧
      (s.resize ns).config.alpha_mode = s.config.alpha_mode) ∧
    (∀ p : PhysicalPosition, ((s.input p).1).config = s.config) := by
  have hresize : ∀ ns : PhysicalSize,
      (s.resize ns).config.format = s.config.format ∧
      (s.resize ns).config.present_mode = s.config.present_mode ∧
      (s.resize ns).config.alpha_mode = s.config.alpha_mode := by
    intro ns
    unfold State.resize
    split
    · exact ⟨rfl, rfl, rfl⟩
    · exact ⟨rfl, rfl, rfl⟩
  refine ⟨?_, hresize, fun p => rfl⟩
  unfold State.render at h
  split at h
  · exact absurd h (by simp)
  · simp only [Option.some.injEq, Except.ok.injEq, Prod.mk.injEq] at h
    obtain ⟨rfl, -⟩ := h
    exact hresize s.size

/-- Witness for C6 at the concrete state `stEx` with a successful
acquisition. -/
theorem resize_render_preserve_config_witness :
    (stEx.resize stEx.size).render (.ok ()) =
      some (.ok (stEx, { clearColor := stEx.clear_color, indexCount := 9 })) ∧
    ((stEx.config.format = stEx.config.format ∧
      stEx.config.present_mode = stEx.config.present_mode ∧
      stEx.config.alpha_mode = stEx.config.alpha_mode) ∧
     (∀ ns : PhysicalSize,
       (stEx.resize ns).config.format = stEx.config.format ∧
       (stEx.resize ns).config.present_mode = stEx.config.present_mode ∧
       (stEx.resize ns).config.alpha_mode = stEx.config.alpha_mode) ∧
     (∀ p : PhysicalPosition, ((stEx.input p).1).config = stEx.config)) :=
  ⟨rfl, resize_render_preserve_config stEx (.ok ()) stEx
    { clearColor := stEx.clear_color, indexCount := 9 } rfl⟩

/-- C7: for every non-empty capability format list, initialization picks
the positionally first SRGB-capable format, and falls back to the first
format of the list when none is SRGB-capable. -/
theorem chooseSurfaceFormat_first_srgb (formats : List TextureFormat)
    (h : formats ≠ []) :
    ((∃ f ∈ formats, f.srgb = true) →
      ∃ k, ∃ hk : k < formats.length,
        chooseSurfaceFormat formats = some (formats.get ⟨k, hk⟩) ∧
        (formats.get ⟨k, hk⟩).srgb = true ∧
        ∀ j (hj : j < formats.length), j < k →
          (formats.get ⟨j, hj⟩).srgb = false) ∧
    ((∀ f ∈ formats, f.srgb = false) →
      chooseSurfaceFormat formats = formats.head?) := by
  have hchoose : chooseSurfaceFormat formats =
      match formats.find? (fun g => g.srgb) with
      | some f => some f
      | none => formats.head? := by
    unfold chooseSurfaceFormat
    rw [head?_filter_eq_find]
  constructor
  · rintro ⟨f, hf, hfs⟩
    cases hfind : formats.find? (fun g => g.srgb) with
    | none =>
      rw [List.find?_eq_none] at hfind
      exact absurd hfs (by simpa using hfind f hf)
    | some g =>
      obtain ⟨k, hk, hget, hgs, hfirst⟩ := find?_first _ _ _ hfind
      refine ⟨k, hk, ?_, ?_, hfirst⟩
      · rw [hchoose, hfind]
        exact congrArg some hget.symm
      · rw [hget]
        exact hgs
  · intro hall
    have hnone : formats.find? (fun g => g.srgb) = none :=
      List.find?_eq_none.mpr (fun a ha => by simp [hall a ha])
    rw [hchoose, hnone]

/-- A concrete format list whose first SRGB-capable entry is not its
head, for the C7 witness. -/
def formatsEx : List TextureFormat := [⟨0, false⟩, ⟨1, true⟩, ⟨2, true⟩]

/-- Witness for C7 at the concrete list `formatsEx`. -/
theorem chooseSurfaceFormat_first_srgb_witness :
    formatsEx ≠ [] ∧
    (((∃ f ∈ formatsEx, f.srgb = true) →
      ∃ k, ∃ hk : k < formatsEx.length,
        chooseSurfaceFormat formatsEx = some (formatsEx.get ⟨k, hk⟩) ∧
        (formatsEx.get ⟨k, hk⟩).srgb = true ∧
        ∀ j (hj : j < formatsEx.length), j < k →
          (formatsEx.get ⟨j, hj⟩).srgb = false) ∧
     ((∀ f ∈ formatsEx, f.srgb = false) →
      chooseSurfaceFormat formatsEx = formatsEx.head?)) :=
  ⟨by decide, chooseSurfaceFormat_first_srgb formatsEx (by decide)⟩

/-- C10: immediately after initialization the clear color is exactly
`(0.1, 0.2, 0.3, 1.0)`, and in every reachable state the blue channel is
`0.3` and the alpha channel is `1.0`. -/
theorem clear_color_fixed_channels :
    (∀ (size : PhysicalSize) (caps : SurfaceCapabilities) (s : State),
        State.new size caps = some s →
        s.clear_color = { r := 1/10, g := 2/10, b := 3/10, a := 1 }) ∧
    (∀ s : State, Reachable s →
        s.clear_color.b = 3/10 ∧ s.clear_color.a = 1) := by
  have hnew : ∀ (size : PhysicalSize) (caps : SurfaceCapabilities) (s : State),
      State.new size caps = some s →
      s.clear_color = { r := 1/10, g := 2/10, b := 3/10, a := 1 } := by
    intro size caps s hs
    unfold State.new at hs
    split at hs
    · obtain rfl := Option.some.inj hs
      rfl
    · exact absurd hs (by simp)
  refine ⟨hnew, ?_⟩
  intro s h
  induction h with
  | new size caps s hs =>
    rw [hnew size caps s hs]
    exact ⟨rfl, rfl⟩
  | resize s ns _ ih =>
    unfold State.resize
    split
    · exact ih
    · exact ih
  | input s p _ ih => exact ⟨rfl, rfl⟩
  | render s s' acq fr _ hr ih =>
    unfold State.render at hr
    split at hr
    · exact absurd hr (by simp)
    · simp only [Option.some.injEq, Except.ok.injEq, Prod.mk.injEq] at hr
      obtain ⟨rfl, -⟩ := hr
      exact ih

/-- Witness for C10 at the concrete initial state `stEx`. -/
theorem clear_color_fixed_channels_witness :
    stEx.clear_color = { r := 1/10, g := 2/10, b := 3/10, a := 1 } ∧
    (stEx.clear_color.b = 3/10 ∧ stEx.clear_color.a = 1) :=
  ⟨clear_color_fixed_channels.1 sizeEx capsEx stEx new_stEx,
   clear_color_fixed_channels.2 stEx (Reachable.new sizeEx capsEx stEx new_stEx)⟩

/-- C1: the claim says a failed surface-texture acquisition is surfaced as
a typed error value; the code instead calls `.unwrap()` on it
(`application.rs:275`), so on `SurfaceError::Lost` the process aborts
(`none` in the model) and no typed error is ever returned to the caller —
even though the caller in `run()` handles exactly those errors. -/
theorem render_panics_on_acquire_failure :
    stEx.render (Except.error SurfaceError.lost) = none ∧
    ∀ e : SurfaceError,
      stEx.render (Except.error SurfaceError.lost) ≠ some (Except.error e) := by
  refine ⟨rfl, ?_⟩
  intro e h
  rw [show stEx.render (Except.error SurfaceError.lost) = none from rfl] at h
  exact Option.noConfusion h

end Daedalus
